import Mathlib

/-! # Verification of the mcp-oauth-proxy stateless authorization core

Shallow embedding of the repository's `src/oauth/codes.rs` (stateless
encrypted authorization codes), `src/config.rs` (config validation), and the
token-exchange handler of the spec (the route in `src/routes/token.rs` is an
unimplemented stub).

Library calls of the Rust code are handled as follows:
* the `base64` crate engines (`URL_SAFE_NO_PAD` and `STANDARD`) are
  implemented concretely below;
* `aes_gcm` (AES-256-GCM AEAD), `serde_json` and `sha2` are external
  cryptographic/serialization libraries: they are modelled as function
  parameters, with their documented contracts (e.g. decrypt-of-encrypt
  round-trip) appearing as explicit hypotheses of the theorems;
* `SystemTime::now()` is modelled as an explicit `now : Nat` argument
  (seconds since the Unix epoch);
* the random nonce of `Aes256Gcm::generate_nonce` is an explicit argument.

Machine bytes (`u8`) are `Nat` with an explicit `< 256` bound where it
matters; `u64` timestamps are `Nat` (the additions involved do not overflow
`u64` for realistic inputs, and the Rust code performs no wrapping
arithmetic on them).
-/

/-! ## Base64 (the `base64` crate)

`URL_SAFE_NO_PAD`: URL-safe alphabet (`A-Z a-z 0-9 - _`), no padding,
canonical (non-zero trailing bits rejected on decode, the crate default).
`STANDARD`: standard alphabet (`A-Z a-z 0-9 + /`), padding required.
Bytes are `Nat` values `< 256`. -/

/-- Encode a 6-bit value as a character of the URL-safe base64 alphabet. -/
def b64UrlChar (n : Nat) : Char :=
  if n < 26 then Char.ofNat (65 + n)
  else if n < 52 then Char.ofNat (97 + (n - 26))
  else if n < 62 then Char.ofNat (48 + (n - 52))
  else if n = 62 then '-'
  else '_'

/-- Decode a character of the URL-safe base64 alphabet to its 6-bit value. -/
def b64UrlVal (c : Char) : Option Nat :=
  if 'A' ≤ c ∧ c ≤ 'Z' then some (c.toNat - 65)
  else if 'a' ≤ c ∧ c ≤ 'z' then some (c.toNat - 97 + 26)
  else if '0' ≤ c ∧ c ≤ '9' then some (c.toNat - 48 + 52)
  else if c = '-' then some 62
  else if c = '_' then some 63
  else none

theorem b64UrlVal_b64UrlChar : ∀ n : Nat, n < 64 → b64UrlVal (b64UrlChar n) = some n := by
  decide

/-- Embeds `base64::engine::general_purpose::URL_SAFE_NO_PAD.encode`, on byte lists. -/
def b64UrlEncode : List Nat → List Char
  | [] => []
  | [a] => [b64UrlChar (a / 4), b64UrlChar (a % 4 * 16)]
  | [a, b] =>
      [b64UrlChar (a / 4), b64UrlChar (a % 4 * 16 + b / 16), b64UrlChar (b % 16 * 4)]
  | a :: b :: c :: rest =>
      b64UrlChar (a / 4) :: b64UrlChar (a % 4 * 16 + b / 16) ::
        b64UrlChar (b % 16 * 4 + c / 64) :: b64UrlChar (c % 64) :: b64UrlEncode rest

/-- Embeds `base64::engine::general_purpose::URL_SAFE_NO_PAD.decode`, on character
lists.  Rejects characters outside the alphabet, a trailing group of one
character, and (like the crate's default decode config) non-zero trailing
bits in a final partial group. -/
def b64UrlDecode : List Char → Option (List Nat)
  | [] => some []
  | [_] => none
  | [c1, c2] =>
      match b64UrlVal c1, b64UrlVal c2 with
      | some s1, some s2 =>
          if s2 % 16 = 0 then some [s1 * 4 + s2 / 16] else none
      | _, _ => none
  | [c1, c2, c3] =>
      match b64UrlVal c1, b64UrlVal c2, b64UrlVal c3 with
      | some s1, some s2, some s3 =>
          if s3 % 4 = 0 then some [s1 * 4 + s2 / 16, s2 % 16 * 16 + s3 / 4] else none
      | _, _, _ => none
  | c1 :: c2 :: c3 :: c4 :: rest =>
      match b64UrlVal c1, b64UrlVal c2, b64UrlVal c3, b64UrlVal c4 with
      | some s1, some s2, some s3, some s4 =>
          match b64UrlDecode rest with
          | some bs =>
              some ((s1 * 4 + s2 / 16) :: (s2 % 16 * 16 + s3 / 4) :: (s3 % 4 * 64 + s4) :: bs)
          | none => none
      | _, _, _, _ => none

/-- Decoding inverts encoding on genuine byte lists (every entry `< 256`). -/
theorem b64Url_roundtrip :
    ∀ l : List Nat, (∀ b ∈ l, b < 256) → b64UrlDecode (b64UrlEncode l) = some l := by
  intro l
  induction l using b64UrlEncode.induct with
  | case1 =>
      intro _
      simp [b64UrlEncode, b64UrlDecode]
  | case2 a =>
      intro h
      have ha : a < 256 := h a (by simp)
      simp only [b64UrlEncode, b64UrlDecode]
      rw [b64UrlVal_b64UrlChar (a / 4) (by omega), b64UrlVal_b64UrlChar (a % 4 * 16) (by omega)]
      dsimp only
      rw [if_pos (by omega)]
      refine congrArg some ?_
      simp only [List.cons.injEq]
      exact ⟨by omega, trivial⟩
  | case3 a b =>
      intro h
      have ha : a < 256 := h a (by simp)
      have hb : b < 256 := h b (by simp)
      simp only [b64UrlEncode, b64UrlDecode]
      rw [b64UrlVal_b64UrlChar (a / 4) (by omega),
        b64UrlVal_b64UrlChar (a % 4 * 16 + b / 16) (by omega),
        b64UrlVal_b64UrlChar (b % 16 * 4) (by omega)]
      dsimp only
      rw [if_pos (by omega)]
      refine congrArg some ?_
      simp only [List.cons.injEq]
      exact ⟨by omega, by omega, trivial⟩
  | case4 a b c rest ih =>
      intro h
      have ha : a < 256 := h a (by simp)
      have hb : b < 256 := h b (by simp)
      have hc : c < 256 := h c (by simp)
      have hrest : ∀ x ∈ rest, x < 256 := by
        intro x hx; exact h x (by simp [hx])
      simp only [b64UrlEncode, b64UrlDecode]
      rw [b64UrlVal_b64UrlChar (a / 4) (by omega),
        b64UrlVal_b64UrlChar (a % 4 * 16 + b / 16) (by omega),
        b64UrlVal_b64UrlChar (b % 16 * 4 + c / 64) (by omega),
        b64UrlVal_b64UrlChar (c % 64) (by omega)]
      dsimp only
      rw [ih hrest]
      refine congrArg some ?_
      simp only [List.cons.injEq]
      exact ⟨by omega, by omega, by omega, trivial⟩

/-- Decode a character of the standard base64 alphabet to its 6-bit value. -/
def b64StdVal (c : Char) : Option Nat :=
  if 'A' ≤ c ∧ c ≤ 'Z' then some (c.toNat - 65)
  else if 'a' ≤ c ∧ c ≤ 'z' then some (c.toNat - 97 + 26)
  else if '0' ≤ c ∧ c ≤ '9' then some (c.toNat - 48 + 52)
  else if c = '+' then some 62
  else if c = '/' then some 63
  else none

/-- Embeds `base64::engine::general_purpose::STANDARD.decode`, on character lists.
The standard engine requires canonical padding: the input length is a
multiple of four, a final group may end in `=` or `==`, and non-zero
trailing bits are rejected (the crate default). -/
def b64StdDecode : List Char → Option (List Nat)
  | [] => some []
  | [c1, c2, '=', '='] =>
      match b64StdVal c1, b64StdVal c2 with
      | some s1, some s2 =>
          if s2 % 16 = 0 then some [s1 * 4 + s2 / 16] else none
      | _, _ => none
  | [c1, c2, c3, '='] =>
      match b64StdVal c1, b64StdVal c2, b64StdVal c3 with
      | some s1, some s2, some s3 =>
          if s3 % 4 = 0 then some [s1 * 4 + s2 / 16, s2 % 16 * 16 + s3 / 4] else none
      | _, _, _ => none
  | c1 :: c2 :: c3 :: c4 :: rest =>
      match b64StdVal c1, b64StdVal c2, b64StdVal c3, b64StdVal c4 with
      | some s1, some s2, some s3, some s4 =>
          match b64StdDecode rest with
          | some bs =>
              some ((s1 * 4 + s2 / 16) :: (s2 % 16 * 16 + s3 / 4) :: (s3 % 4 * 64 + s4) :: bs)
          | none => none
      | _, _, _, _ => none
  | _ => none

/-! ## `src/oauth/codes.rs` — stateless encrypted authorization codes -/

/-- Tokens embedded inside the encrypted authorization code
(`enum DownstreamTokens`). -/
inductive DownstreamTokens where
  | Passthrough (access_token : String)
  | ChainedOAuth (access_token : String) (refresh_token : Option String)
      (expires_in : Option Nat)
  deriving DecidableEq, Repr

/-- The plaintext payload encrypted inside the authorization code
(`struct AuthCodePayload`). -/
structure AuthCodePayload where
  downstream_tokens : DownstreamTokens
  pkce_challenge : String
  redirect_uri : String
  exp : Nat
  deriving DecidableEq, Repr

/-- Derive a 256-bit AES key from the server's state_secret using SHA-256
(`fn derive_key`).  `sha256` is the `sha2` library's `Sha256::digest`,
passed as a parameter. -/
def derive_key (sha256 : List Nat → List Nat) (state_secret : List Nat) : List Nat :=
  sha256 state_secret

/-- Create an encrypted authorization code containing the given grant data
(`fn create_auth_code`).

`ser` is `serde_json::to_vec` on `AuthCodePayload`, `encrypt` is
`Aes256Gcm::encrypt` (key, nonce, plaintext — the returned bytes include the
GCM tag), both passed as parameters.  `now` is `SystemTime::now()` in
seconds since the Unix epoch and `nonce` the 12 random bytes of
`Aes256Gcm::generate_nonce`, both made explicit arguments.  The Rust
function returns `Result<String, String>`, but each of its error paths is a
library-call failure that cannot occur (`now` is a `Nat`, so
`duration_since(UNIX_EPOCH)` cannot fail; serialization of the payload
struct and AES-GCM encryption with the 32-byte SHA-256 key are total), so
the embedding returns the success value directly. -/
def create_auth_code (sha256 : List Nat → List Nat)
    (ser : AuthCodePayload → List Nat)
    (encrypt : List Nat → List Nat → List Nat → List Nat)
    (downstream_tokens : DownstreamTokens) (pkce_challenge : String)
    (redirect_uri : String) (ttl_seconds : Nat) (state_secret : List Nat)
    (now : Nat) (nonce : List Nat) : String :=
  let exp := now + ttl_seconds
  let payload : AuthCodePayload :=
    { downstream_tokens := downstream_tokens
      pkce_challenge := pkce_challenge
      redirect_uri := redirect_uri
      exp := exp }
  let plaintext := ser payload
  let key := derive_key sha256 state_secret
  let ciphertext := encrypt key nonce plaintext
  let blob := nonce ++ ciphertext
  String.mk (b64UrlEncode blob)

/-- Result of decrypting and validating an authorization code
(`struct ValidatedGrant`). -/
structure ValidatedGrant where
  downstream_tokens : DownstreamTokens
  pkce_challenge : String
  redirect_uri : String
  deriving DecidableEq, Repr

/-- The distinct `&'static str` error values returned by
`validate_auth_code`, one constructor per `return Err(...)` site reachable
in the embedding, plus `panicked`, which models the Rust panic that
`blob.split_at(12)` would raise on a blob shorter than 12 bytes (the code's
length check makes it unreachable; proving that is claim C9).  The Rust
sites `"internal cipher error"` (`Aes256Gcm::new_from_slice` on the 32-byte
`[u8; 32]` SHA-256 key) and `"system time error"` (`SystemTime` before the
epoch; `now` is a `Nat` here) are statically impossible and not modelled. -/
inductive CodecError where
  | decodeError
  | tooShort
  | tampered
  | corrupt
  | expired
  | panicked
  deriving DecidableEq, Repr

/-- The exact `&'static str` message of each modelled error site of
`validate_auth_code`. -/
def CodecError.message : CodecError → String
  | .decodeError => "invalid authorization code encoding"
  | .tooShort => "authorization code too short"
  | .tampered => "authorization code is invalid or tampered"
  | .corrupt => "authorization code payload corrupt"
  | .expired => "authorization code expired"
  | .panicked => "panicked"

/-- Rust's `slice::split_at(n)`: panics (here: `none`) when `n` exceeds the
length. -/
def rustSplitAt (n : Nat) (l : List Nat) : Option (List Nat × List Nat) :=
  if n ≤ l.length then some (l.take n, l.drop n) else none

/-- Decrypt and validate an authorization code (`fn validate_auth_code`).

`decrypt` is `Aes256Gcm::decrypt` (key, nonce, ciphertext; `none` is the
`aes_gcm::Error` raised on any tag-verification failure), `deser` is
`serde_json::from_slice::<AuthCodePayload>` (`none` on malformed JSON), and
`sha256` as in `derive_key`; `now` is the wall clock in seconds. -/
def validate_auth_code (sha256 : List Nat → List Nat)
    (decrypt : List Nat → List Nat → List Nat → Option (List Nat))
    (deser : List Nat → Option AuthCodePayload)
    (code : String) (state_secret : List Nat) (now : Nat) :
    Except CodecError ValidatedGrant :=
  match b64UrlDecode code.data with
  | none => .error .decodeError
  | some blob =>
    if blob.length < 13 then
      -- 12 bytes nonce + at least 1 byte ciphertext
      .error .tooShort
    else
      match rustSplitAt 12 blob with
      | none => .error .panicked
      | some (nonce_bytes, ciphertext) =>
        let key := derive_key sha256 state_secret
        match decrypt key nonce_bytes ciphertext with
        | none => .error .tampered
        | some plaintext =>
          match deser plaintext with
          | none => .error .corrupt
          | some payload =>
            -- Check expiry
            if payload.exp < now then .error .expired
            else
              .ok { downstream_tokens := payload.downstream_tokens
                    pkce_challenge := payload.pkce_challenge
                    redirect_uri := payload.redirect_uri }

/-- Applying `split_at 12` to a blob laid out as `nonce(12) ++ ciphertext` recovers
the two parts. -/
theorem rustSplitAt_append (nonce ct : List Nat) (h : nonce.length = 12) :
    rustSplitAt 12 (nonce ++ ct) = some (nonce, ct) := by
  have h12 : 12 ≤ (nonce ++ ct).length := by
    simp [List.length_append, h]
  rw [rustSplitAt, if_pos h12]
  rw [← h, List.take_left, List.drop_left]

/-- Core computation shared by the round-trip and expiry claims: validating
a freshly created code reduces to the expiry comparison, under the library
contracts of `serde_json` (parse-of-serialize round-trip at this payload)
and AES-256-GCM (decrypt-of-encrypt round-trip at this key/nonce/plaintext,
ciphertext bytes are bytes, ciphertext — which includes the 16-byte GCM
tag — is non-empty). -/
theorem validate_create_auth_code (sha256 : List Nat → List Nat)
    (ser : AuthCodePayload → List Nat)
    (encrypt : List Nat → List Nat → List Nat → List Nat)
    (decrypt : List Nat → List Nat → List Nat → Option (List Nat))
    (deser : List Nat → Option AuthCodePayload)
    (tok : DownstreamTokens) (ch ru : String) (ttl : Nat) (secret : List Nat)
    (now now' : Nat) (nonce : List Nat)
    (hnlen : nonce.length = 12)
    (hnb : ∀ b ∈ nonce, b < 256)
    (hser : deser (ser ⟨tok, ch, ru, now + ttl⟩) = some ⟨tok, ch, ru, now + ttl⟩)
    (hcb : ∀ b ∈ encrypt (derive_key sha256 secret) nonce
      (ser ⟨tok, ch, ru, now + ttl⟩), b < 256)
    (hclen : encrypt (derive_key sha256 secret) nonce
      (ser ⟨tok, ch, ru, now + ttl⟩) ≠ []) :
    validate_auth_code sha256 decrypt deser
      (create_auth_code sha256 ser encrypt tok ch ru ttl secret now nonce)
      secret now' =
    (if decrypt (derive_key sha256 secret) nonce
        (encrypt (derive_key sha256 secret) nonce (ser ⟨tok, ch, ru, now + ttl⟩)) =
        some (ser ⟨tok, ch, ru, now + ttl⟩) then
      if now + ttl < now' then .error .expired
      else .ok ⟨tok, ch, ru⟩
    else validate_auth_code sha256 decrypt deser
      (create_auth_code sha256 ser encrypt tok ch ru ttl secret now nonce)
      secret now') := by
  by_cases hdec : decrypt (derive_key sha256 secret) nonce
      (encrypt (derive_key sha256 secret) nonce (ser ⟨tok, ch, ru, now + ttl⟩)) =
      some (ser ⟨tok, ch, ru, now + ttl⟩)
  · rw [if_pos hdec]
    set ct := encrypt (derive_key sha256 secret) nonce (ser ⟨tok, ch, ru, now + ttl⟩)
      with hct
    have hblob : ∀ b ∈ nonce ++ ct, b < 256 := by
      intro b hb
      rcases List.mem_append.mp hb with h | h
      · exact hnb b h
      · exact hcb b h
    have hlen : ¬ (nonce ++ ct).length < 13 := by
      have : 1 ≤ ct.length := by
        cases hc : ct with
        | nil => exact absurd hc hclen
        | cons x xs => simp
      simp only [List.length_append, hnlen]
      omega
    simp only [validate_auth_code, create_auth_code]
    rw [← hct]
    rw [b64Url_roundtrip (nonce ++ ct) hblob]
    simp only [if_neg hlen]
    rw [rustSplitAt_append nonce ct hnlen]
    simp only [hdec, hser]
  · rw [if_neg hdec]

/-- C2: for every envelope (any `DownstreamTokens` variant, any
`pkce_challenge`, any `redirect_uri`, any TTL) and every key, validating the
code produced by `create_auth_code` with the same key before the TTL elapses
succeeds and returns an envelope equal to the one that was sealed — the same
`downstream_tokens`, `pkce_challenge` and `redirect_uri`.  The hypotheses
are the contracts of the external libraries (12-byte random nonce, AES-GCM
decrypt-of-encrypt and serde-json parse-of-serialize round-trips, ciphertext
bytes are bytes and include the non-empty GCM tag). -/
theorem round_trip_validate_create (sha256 : List Nat → List Nat)
    (ser : AuthCodePayload → List Nat)
    (encrypt : List Nat → List Nat → List Nat → List Nat)
    (decrypt : List Nat → List Nat → List Nat → Option (List Nat))
    (deser : List Nat → Option AuthCodePayload)
    (tok : DownstreamTokens) (ch ru : String) (ttl : Nat) (secret : List Nat)
    (now now' : Nat) (nonce : List Nat)
    (hnlen : nonce.length = 12)
    (hnb : ∀ b ∈ nonce, b < 256)
    (hser : deser (ser ⟨tok, ch, ru, now + ttl⟩) = some ⟨tok, ch, ru, now + ttl⟩)
    (hcb : ∀ b ∈ encrypt (derive_key sha256 secret) nonce
      (ser ⟨tok, ch, ru, now + ttl⟩), b < 256)
    (hclen : encrypt (derive_key sha256 secret) nonce
      (ser ⟨tok, ch, ru, now + ttl⟩) ≠ [])
    (hdec : decrypt (derive_key sha256 secret) nonce
      (encrypt (derive_key sha256 secret) nonce (ser ⟨tok, ch, ru, now + ttl⟩)) =
      some (ser ⟨tok, ch, ru, now + ttl⟩))
    (htime : now' ≤ now + ttl) :
    validate_auth_code sha256 decrypt deser
      (create_auth_code sha256 ser encrypt tok ch ru ttl secret now nonce)
      secret now' = .ok ⟨tok, ch, ru⟩ := by
  rw [validate_create_auth_code sha256 ser encrypt decrypt deser tok ch ru ttl secret
    now now' nonce hnlen hnb hser hcb hclen]
  rw [if_pos hdec, if_neg (by omega)]

/-! Concrete instantiations of the library parameters, used by the
witnesses: a constant hash, an injective-at-the-point serializer, and an
append-a-byte cipher.  They satisfy the library contracts at the concrete
witness values. -/

def toySha : List Nat → List Nat := fun _ => List.replicate 32 0

def toyAccessToken : String := "my-api-key"

def toyChallenge : String := "challenge123"

def toyRedirect : String := "https://claude.ai/callback"

def toyPayload : AuthCodePayload :=
  ⟨DownstreamTokens.Passthrough toyAccessToken, toyChallenge, toyRedirect, 15⟩

def toySer : AuthCodePayload → List Nat := fun _ => [1]

def toyDeser : List Nat → Option AuthCodePayload :=
  fun bs => if bs = [1] then some toyPayload else none

def toyEncrypt : List Nat → List Nat → List Nat → List Nat :=
  fun _ _ plaintext => plaintext ++ [0]

def toyDecrypt : List Nat → List Nat → List Nat → Option (List Nat) :=
  fun _ _ ciphertext => if ciphertext = [1, 0] then some [1] else none

def toyNonce : List Nat := List.replicate 12 0

theorem round_trip_validate_create_witness :
    validate_auth_code toySha toyDecrypt toyDeser
      (create_auth_code toySha toySer toyEncrypt
        (DownstreamTokens.Passthrough toyAccessToken) toyChallenge toyRedirect
        5 [7] 10 toyNonce)
      [7] 12 =
      .ok ⟨DownstreamTokens.Passthrough toyAccessToken, toyChallenge, toyRedirect⟩ :=
  round_trip_validate_create toySha toySer toyEncrypt toyDecrypt toyDeser
    (DownstreamTokens.Passthrough toyAccessToken) toyChallenge toyRedirect
    5 [7] 10 12 toyNonce
    (by decide) (by decide) (by decide) (by decide) (by decide) (by decide) (by decide)

/-- C4: every code created by `create_auth_code` embeds
`exp = now + ttl_seconds`, and `validate_auth_code` fails with the
`expired` error exactly when the wall clock at validation time strictly
exceeds that embedded expiry (under the same library contracts as the
round-trip).  In particular a code created with `ttl_seconds = 0` fails as
expired at any `now'` with `now < now'`. -/
theorem expired_validate_create (sha256 : List Nat → List Nat)
    (ser : AuthCodePayload → List Nat)
    (encrypt : List Nat → List Nat → List Nat → List Nat)
    (decrypt : List Nat → List Nat → List Nat → Option (List Nat))
    (deser : List Nat → Option AuthCodePayload)
    (tok : DownstreamTokens) (ch ru : String) (ttl : Nat) (secret : List Nat)
    (now now' : Nat) (nonce : List Nat)
    (hnlen : nonce.length = 12)
    (hnb : ∀ b ∈ nonce, b < 256)
    (hser : deser (ser ⟨tok, ch, ru, now + ttl⟩) = some ⟨tok, ch, ru, now + ttl⟩)
    (hcb : ∀ b ∈ encrypt (derive_key sha256 secret) nonce
      (ser ⟨tok, ch, ru, now + ttl⟩), b < 256)
    (hclen : encrypt (derive_key sha256 secret) nonce
      (ser ⟨tok, ch, ru, now + ttl⟩) ≠ [])
    (hdec : decrypt (derive_key sha256 secret) nonce
      (encrypt (derive_key sha256 secret) nonce (ser ⟨tok, ch, ru, now + ttl⟩)) =
      some (ser ⟨tok, ch, ru, now + ttl⟩)) :
    (validate_auth_code sha256 decrypt deser
      (create_auth_code sha256 ser encrypt tok ch ru ttl secret now nonce)
      secret now' = .error .expired) ↔ now + ttl < now' := by
  rw [validate_create_auth_code sha256 ser encrypt decrypt deser tok ch ru ttl secret
    now now' nonce hnlen hnb hser hcb hclen]
  rw [if_pos hdec]
  by_cases h : now + ttl < now'
  · simp [h]
  · simp [h]

theorem expired_validate_create_witness :
    validate_auth_code toySha toyDecrypt toyDeser
      (create_auth_code toySha toySer toyEncrypt
        (DownstreamTokens.Passthrough toyAccessToken) toyChallenge toyRedirect
        0 [7] 15 toyNonce)
      [7] 16 = .error .expired :=
  (expired_validate_create toySha toySer toyEncrypt toyDecrypt toyDeser
    (DownstreamTokens.Passthrough toyAccessToken) toyChallenge toyRedirect
    0 [7] 15 16 toyNonce
    (by decide) (by decide) (by decide) (by decide) (by decide) (by decide)).mpr
    (by omega)

theorem validate_decodeError_iff (sha256 : List Nat → List Nat)
    (decrypt : List Nat → List Nat → List Nat → Option (List Nat))
    (deser : List Nat → Option AuthCodePayload)
    (code : String) (secret : List Nat) (now : Nat) :
    validate_auth_code sha256 decrypt deser code secret now = .error .decodeError ↔
      b64UrlDecode code.data = none := by
  simp only [validate_auth_code]
  split
  · simp_all
  · repeat' split
    all_goals simp_all

theorem validate_tooShort_iff (sha256 : List Nat → List Nat)
    (decrypt : List Nat → List Nat → List Nat → Option (List Nat))
    (deser : List Nat → Option AuthCodePayload)
    (code : String) (secret : List Nat) (now : Nat) :
    validate_auth_code sha256 decrypt deser code secret now = .error .tooShort ↔
      ∃ blob, b64UrlDecode code.data = some blob ∧ blob.length < 13 := by
  simp only [validate_auth_code]
  split
  · simp_all
  · repeat' split
    all_goals simp_all

theorem validate_tampered_iff (sha256 : List Nat → List Nat)
    (decrypt : List Nat → List Nat → List Nat → Option (List Nat))
    (deser : List Nat → Option AuthCodePayload)
    (code : String) (secret : List Nat) (now : Nat) :
    validate_auth_code sha256 decrypt deser code secret now = .error .tampered ↔
      ∃ blob, b64UrlDecode code.data = some blob ∧ ¬ blob.length < 13 ∧
        decrypt (derive_key sha256 secret) (blob.take 12) (blob.drop 12) = none := by
  simp only [validate_auth_code]
  split
  · simp_all
  · repeat' split
    all_goals simp_all [rustSplitAt]
    all_goals omega

theorem validate_corrupt_iff (sha256 : List Nat → List Nat)
    (decrypt : List Nat → List Nat → List Nat → Option (List Nat))
    (deser : List Nat → Option AuthCodePayload)
    (code : String) (secret : List Nat) (now : Nat) :
    validate_auth_code sha256 decrypt deser code secret now = .error .corrupt ↔
      ∃ blob plaintext, b64UrlDecode code.data = some blob ∧ ¬ blob.length < 13 ∧
        decrypt (derive_key sha256 secret) (blob.take 12) (blob.drop 12) = some plaintext ∧
        deser plaintext = none := by
  simp only [validate_auth_code]
  split
  · simp_all
  · repeat' split
    all_goals simp_all [rustSplitAt]
    all_goals omega

theorem validate_expired_iff (sha256 : List Nat → List Nat)
    (decrypt : List Nat → List Nat → List Nat → Option (List Nat))
    (deser : List Nat → Option AuthCodePayload)
    (code : String) (secret : List Nat) (now : Nat) :
    validate_auth_code sha256 decrypt deser code secret now = .error .expired ↔
      ∃ blob plaintext payload, b64UrlDecode code.data = some blob ∧ ¬ blob.length < 13 ∧
        decrypt (derive_key sha256 secret) (blob.take 12) (blob.drop 12) = some plaintext ∧
        deser plaintext = some payload ∧ payload.exp < now := by
  simp only [validate_auth_code]
  split
  · simp_all
  · repeat' split
    all_goals simp_all [rustSplitAt]
    all_goals omega

/-- C3: `validate_auth_code` performs its checks in the fixed order —
(a) base64url decode, (b) decoded length at least 13 bytes, (c) AEAD
decryption, (d) envelope parse, (e) expiry comparison — and each failure is
exactly one of the five distinct stable error tags decode / too-short /
tamper / corrupt / expired: each tag occurs precisely when its check is the
first to fail, every AEAD tag-verification failure (corruption, tampering
or wrong key, i.e. any `decrypt = none`) collapses into the single generic
tamper error, and the five error messages are pairwise distinct. -/
theorem validate_error_taxonomy (sha256 : List Nat → List Nat)
    (decrypt : List Nat → List Nat → List Nat → Option (List Nat))
    (deser : List Nat → Option AuthCodePayload)
    (code : String) (secret : List Nat) (now : Nat) :
    (validate_auth_code sha256 decrypt deser code secret now = .error .decodeError ↔
      b64UrlDecode code.data = none) ∧
    (validate_auth_code sha256 decrypt deser code secret now = .error .tooShort ↔
      ∃ blob, b64UrlDecode code.data = some blob ∧ blob.length < 13) ∧
    (validate_auth_code sha256 decrypt deser code secret now = .error .tampered ↔
      ∃ blob, b64UrlDecode code.data = some blob ∧ ¬ blob.length < 13 ∧
        decrypt (derive_key sha256 secret) (blob.take 12) (blob.drop 12) = none) ∧
    (validate_auth_code sha256 decrypt deser code secret now = .error .corrupt ↔
      ∃ blob plaintext, b64UrlDecode code.data = some blob ∧ ¬ blob.length < 13 ∧
        decrypt (derive_key sha256 secret) (blob.take 12) (blob.drop 12) = some plaintext ∧
        deser plaintext = none) ∧
    (validate_auth_code sha256 decrypt deser code secret now = .error .expired ↔
      ∃ blob plaintext payload, b64UrlDecode code.data = some blob ∧ ¬ blob.length < 13 ∧
        decrypt (derive_key sha256 secret) (blob.take 12) (blob.drop 12) = some plaintext ∧
        deser plaintext = some payload ∧ payload.exp < now) ∧
    List.Nodup [CodecError.message .decodeError, CodecError.message .tooShort,
      CodecError.message .tampered, CodecError.message .corrupt,
      CodecError.message .expired] :=
  ⟨validate_decodeError_iff sha256 decrypt deser code secret now,
   validate_tooShort_iff sha256 decrypt deser code secret now,
   validate_tampered_iff sha256 decrypt deser code secret now,
   validate_corrupt_iff sha256 decrypt deser code secret now,
   validate_expired_iff sha256 decrypt deser code secret now,
   by decide⟩

/-- C9: `validate_auth_code` is total — for every input string, secret, and
behaviour of the external libraries it returns a `ValidatedGrant` or one of
its error values and never panics: the explicit `blob.len() < 13` check
makes the 12-byte `split_at` (whose out-of-bounds panic is modelled by the
`panicked` outcome) always in bounds, and base64, decryption and JSON
failures are all caught as errors. -/
theorem validate_auth_code_total (sha256 : List Nat → List Nat)
    (decrypt : List Nat → List Nat → List Nat → Option (List Nat))
    (deser : List Nat → Option AuthCodePayload)
    (code : String) (secret : List Nat) (now : Nat) :
    validate_auth_code sha256 decrypt deser code secret now ≠ .error .panicked := by
  simp only [validate_auth_code]
  split
  · simp
  · repeat' split
    all_goals simp_all [rustSplitAt]
    all_goals omega

/-! ## `src/config.rs` — configuration validation

Rust's `str::starts_with` / `str::ends_with` are modelled on the character
lists underlying `String`; error `format!` strings are modelled as inductive
error values carrying the dynamic parts of the message (the `message`
functions below render the exact text). -/

def strStartsWith (s p : String) : Bool := s.data.take p.data.length = p.data

def strEndsWith (s p : String) : Bool :=
  s.data.drop (s.data.length - p.data.length) = p.data ∧ p.data.length ≤ s.data.length

/-- Server-level configuration (`struct ServerConfig`); `port : u16` is a
`Nat`, `auth_code_ttl : u64` is a `Nat`. -/
structure ServerConfig where
  host : String
  port : Nat
  public_url : String
  state_secret : String
  auth_code_ttl : Nat
  deriving DecidableEq, Repr

/-- Authentication strategy for a downstream MCP server (`enum Strategy`). -/
inductive Strategy where
  | Passthrough
  | ChainedOauth
  deriving DecidableEq, Repr

/-- Configuration for a single downstream MCP server
(`struct DownstreamConfig`). -/
structure DownstreamConfig where
  name : String
  display_name : String
  strategy : Strategy
  downstream_url : String
  auth_header_format : String
  scopes : String
  auth_hint : String
  oauth_authorize_url : String
  oauth_token_url : String
  oauth_client_id : String
  oauth_client_secret : String
  oauth_scopes : String
  oauth_supports_refresh : Bool
  oauth_token_accept : String
  deriving DecidableEq, Repr

/-- The distinct error returns of `validate_server`, carrying the dynamic
parts of their `format!` messages. -/
inductive ServerError where
  | publicUrlRequired
  | publicUrlTrailingSlash
  | publicUrlScheme
  | stateSecretRequired
  | stateSecretTooShort (got : Nat)
  | stateSecretInvalidBase64
  deriving DecidableEq, Repr

/-- The message text of each `validate_server` error (the base64 decode
error detail interpolated by Rust into the `stateSecretInvalidBase64`
message is not modelled). -/
def ServerError.message : ServerError → String
  | .publicUrlRequired => "server.public_url is required"
  | .publicUrlTrailingSlash => "server.public_url must not have a trailing slash"
  | .publicUrlScheme => "server.public_url must start with https:// (or http:// for local dev)"
  | .stateSecretRequired => "server.state_secret is required"
  | .stateSecretTooShort got =>
      "server.state_secret must be at least 32 bytes when base64-decoded (got " ++
        toString got ++ " bytes). Generate with: openssl rand -base64 32"
  | .stateSecretInvalidBase64 => "server.state_secret is not valid base64"

def httpSchemeStr : String := "http://"

def httpsSchemeStr : String := "https://"

def slashStr : String := "/"

def publicUrlHttpWarning : String :=
  "server.public_url uses http:// — HTTPS is required for production deployments"

/-- The `state_secret` block of `fn validate_server` (`config.rs` lines
158-177): required non-empty, must be standard base64 decoding to at least
32 bytes. -/
def checkStateSecret (state_secret : String) : Except ServerError Unit :=
  if state_secret = "" then .error .stateSecretRequired
  else
    match b64StdDecode state_secret.data with
    | some bytes =>
        if bytes.length < 32 then .error (.stateSecretTooShort bytes.length)
        else .ok ()
    | none => .error .stateSecretInvalidBase64

/-- Embeds `fn validate_server`.  The first component of the result collects the
`tracing::warn!` messages emitted (the Rust function logs them as a side
effect and returns `Result<(), String>`). -/
def validate_server (server : ServerConfig) : List String × Except ServerError Unit :=
  if server.public_url = "" then ([], .error .publicUrlRequired)
  else if strEndsWith server.public_url slashStr then
    ([], .error .publicUrlTrailingSlash)
  else if strStartsWith server.public_url httpSchemeStr then
    ([publicUrlHttpWarning], checkStateSecret server.state_secret)
  else if !strStartsWith server.public_url httpsSchemeStr then
    ([], .error .publicUrlScheme)
  else ([], checkStateSecret server.state_secret)

/-- The distinct error returns of `validate_downstreams`, carrying the
dynamic parts of their `format!` messages. -/
inductive DownstreamError where
  | noDownstreams
  | nameFormat (name : String)
  | duplicateName (name : String)
  | displayNameRequired (name : String)
  | downstreamUrlRequired (name : String)
  | downstreamUrlInvalid (name : String)
  | chainedOauthMissing (name : String) (missing : List String)
  | authHeaderFormatInvalid (name : String) (format : String)
  deriving DecidableEq, Repr

def commaSep : String := ", "

/-- The message text of each `validate_downstreams` error.  Note that the
`chainedOauthMissing` message interpolates the comma-joined list of *all*
missing field names. -/
def DownstreamError.message : DownstreamError → String
  | .noDownstreams => "At least one [[downstream]] entry is required"
  | .nameFormat name =>
      "downstream '" ++ name ++
        "': name must match ^[a-z0-9-]+$ (lowercase alphanumeric and hyphens only)"
  | .duplicateName name =>
      "downstream '" ++ name ++ "': duplicate name — each downstream must have a unique name"
  | .displayNameRequired name => "downstream '" ++ name ++ "': display_name is required"
  | .downstreamUrlRequired name => "downstream '" ++ name ++ "': downstream_url is required"
  | .downstreamUrlInvalid name =>
      "downstream '" ++ name ++ "': downstream_url must be a valid HTTP(S) URL"
  | .chainedOauthMissing name missing =>
      "downstream '" ++ name ++ "': chained_oauth strategy requires: " ++
        String.intercalate commaSep missing
  | .authHeaderFormatInvalid name fmt =>
      "downstream '" ++ name ++ "': auth_header_format '" ++ fmt ++
        "' is not recognized. Use one of: Bearer, token, Basic, X-API-Key, or a custom X-* header"

/-- Embeds `regex_lite::Regex::new(r"^[a-z0-9-]+$").is_match(name)`: the name is a
non-empty string of lowercase ASCII letters, digits and hyphens. -/
def nameMatchesSlug (s : String) : Bool :=
  !s.data.isEmpty &&
    s.data.all fun c => ('a' ≤ c && c ≤ 'z') || ('0' ≤ c && c ≤ '9') || c = '-'

def fAuthorizeUrl : String := "oauth_authorize_url"

def fTokenUrl : String := "oauth_token_url"

def fClientId : String := "oauth_client_id"

def fClientSecret : String := "oauth_client_secret"

/-- The `missing` vector of the chained-OAuth check of
`validate_downstreams`: the names of the required `oauth_*` fields whose
value is empty, in declaration order. -/
def missingOauthFields (ds : DownstreamConfig) : List String :=
  (([(fAuthorizeUrl, ds.oauth_authorize_url), (fTokenUrl, ds.oauth_token_url),
      (fClientId, ds.oauth_client_id), (fClientSecret, ds.oauth_client_secret)]).filter
    fun p => decide (p.2 = "")).map Prod.fst

def xDashStr : String := "X-"

/-- The `auth_header_format` allow-list check: one of the fixed formats or
any custom `X-` header. -/
def headerFormatOk (fmt : String) : Bool :=
  ["Bearer", "token", "Basic", "X-API-Key"].contains fmt || strStartsWith fmt xDashStr

/-- The per-downstream body of the `for ds in downstreams` loop of
`fn validate_downstreams`, with the `HashSet` of already-seen names passed
explicitly. -/
def validate_one_downstream (seen : List String) (ds : DownstreamConfig) :
    Except DownstreamError Unit :=
  if !nameMatchesSlug ds.name then .error (.nameFormat ds.name)
  else if ds.name ∈ seen then .error (.duplicateName ds.name)
  else if ds.display_name = "" then .error (.displayNameRequired ds.name)
  else if ds.downstream_url = "" then .error (.downstreamUrlRequired ds.name)
  else if !(strStartsWith ds.downstream_url httpSchemeStr ||
      strStartsWith ds.downstream_url httpsSchemeStr) then
    .error (.downstreamUrlInvalid ds.name)
  else if ds.strategy = .ChainedOauth ∧ missingOauthFields ds ≠ [] then
    .error (.chainedOauthMissing ds.name (missingOauthFields ds))
  else if !headerFormatOk ds.auth_header_format then
    .error (.authHeaderFormatInvalid ds.name ds.auth_header_format)
  else .ok ()

/-- The loop of `fn validate_downstreams`: short-circuits on the first
error, accumulating the seen names. -/
def validate_downstreams_go (seen : List String) :
    List DownstreamConfig → Except DownstreamError Unit
  | [] => .ok ()
  | ds :: rest =>
      match validate_one_downstream seen ds with
      | .error e => .error e
      | .ok _ => validate_downstreams_go (ds.name :: seen) rest

/-- Embeds `fn validate_downstreams`. -/
def validate_downstreams (downstreams : List DownstreamConfig) :
    Except DownstreamError Unit :=
  if downstreams.isEmpty then .error .noDownstreams
  else validate_downstreams_go [] downstreams

theorem mem_missingOauthFields (ds : DownstreamConfig) (s : String) :
    s ∈ missingOauthFields ds ↔
      ((s = fAuthorizeUrl ∧ ds.oauth_authorize_url = "") ∨
       (s = fTokenUrl ∧ ds.oauth_token_url = "") ∨
       (s = fClientId ∧ ds.oauth_client_id = "") ∨
       (s = fClientSecret ∧ ds.oauth_client_secret = "")) := by
  simp only [missingOauthFields, List.mem_map, List.mem_filter]
  constructor
  · rintro ⟨⟨a, b⟩, ⟨hmem, hempty⟩, heq⟩
    simp only [List.mem_cons, List.mem_singleton, Prod.mk.injEq] at hmem
    simp only [decide_eq_true_eq] at hempty
    rcases hmem with ⟨h1, h2⟩ | ⟨h1, h2⟩ | ⟨h1, h2⟩ | (⟨h1, h2⟩ | hfalse)
    · exact Or.inl ⟨by rw [← heq, h1], by rw [← h2]; exact hempty⟩
    · exact Or.inr (Or.inl ⟨by rw [← heq, h1], by rw [← h2]; exact hempty⟩)
    · exact Or.inr (Or.inr (Or.inl ⟨by rw [← heq, h1], by rw [← h2]; exact hempty⟩))
    · exact Or.inr (Or.inr (Or.inr ⟨by rw [← heq, h1], by rw [← h2]; exact hempty⟩))
    · exact absurd hfalse (by simp)
  · rintro (⟨h1, h2⟩ | ⟨h1, h2⟩ | ⟨h1, h2⟩ | ⟨h1, h2⟩)
    · exact ⟨(fAuthorizeUrl, ds.oauth_authorize_url), ⟨by simp, by simp [h2]⟩, h1.symm⟩
    · exact ⟨(fTokenUrl, ds.oauth_token_url), ⟨by simp, by simp [h2]⟩, h1.symm⟩
    · exact ⟨(fClientId, ds.oauth_client_id), ⟨by simp, by simp [h2]⟩, h1.symm⟩
    · exact ⟨(fClientSecret, ds.oauth_client_secret), ⟨by simp, by simp [h2]⟩, h1.symm⟩

/-- C5: for a chained-OAuth downstream that passes the preceding per-entry
checks, when one or more of the four `oauth_*` fields are empty the
validation fails with a single `chainedOauthMissing` error whose carried
list (rendered comma-joined into the message) has exactly the missing
fields as members — all of them, not only the first — and when all four are
non-empty no such error is possible. -/
theorem chained_oauth_missing_fields (seen : List String) (ds : DownstreamConfig)
    (hstrat : ds.strategy = .ChainedOauth)
    (hname : nameMatchesSlug ds.name = true)
    (hdup : ds.name ∉ seen)
    (hdisp : ds.display_name ≠ "")
    (hurl : ds.downstream_url ≠ "")
    (hscheme : (strStartsWith ds.downstream_url httpSchemeStr ||
      strStartsWith ds.downstream_url httpsSchemeStr) = true) :
    (missingOauthFields ds ≠ [] →
      validate_one_downstream seen ds =
        .error (.chainedOauthMissing ds.name (missingOauthFields ds)) ∧
      (fAuthorizeUrl ∈ missingOauthFields ds ↔ ds.oauth_authorize_url = "") ∧
      (fTokenUrl ∈ missingOauthFields ds ↔ ds.oauth_token_url = "") ∧
      (fClientId ∈ missingOauthFields ds ↔ ds.oauth_client_id = "") ∧
      (fClientSecret ∈ missingOauthFields ds ↔ ds.oauth_client_secret = "")) ∧
    (ds.oauth_authorize_url ≠ "" → ds.oauth_token_url ≠ "" →
      ds.oauth_client_id ≠ "" → ds.oauth_client_secret ≠ "" →
      ∀ nm missing, validate_one_downstream seen ds ≠
        .error (.chainedOauthMissing nm missing)) := by
  have hfields : ∀ s : String, s ∈ missingOauthFields ds ↔
      ((s = fAuthorizeUrl ∧ ds.oauth_authorize_url = "") ∨
       (s = fTokenUrl ∧ ds.oauth_token_url = "") ∨
       (s = fClientId ∧ ds.oauth_client_id = "") ∨
       (s = fClientSecret ∧ ds.oauth_client_secret = "")) :=
    fun s => mem_missingOauthFields ds s
  have hdistinct : fAuthorizeUrl ≠ fTokenUrl ∧ fAuthorizeUrl ≠ fClientId ∧
      fAuthorizeUrl ≠ fClientSecret ∧ fTokenUrl ≠ fClientId ∧
      fTokenUrl ≠ fClientSecret ∧ fClientId ≠ fClientSecret := by decide
  constructor
  · intro hmiss
    refine ⟨?_, ?_, ?_, ?_, ?_⟩
    · rw [validate_one_downstream]
      rw [if_neg (by simp [hname])]
      rw [if_neg hdup]
      rw [if_neg hdisp]
      rw [if_neg hurl]
      rw [if_neg (by simp [hscheme])]
      rw [if_pos ⟨hstrat, hmiss⟩]
    · rw [hfields fAuthorizeUrl]
      constructor
      · rintro (⟨_, h⟩ | ⟨h1, _⟩ | ⟨h1, _⟩ | ⟨h1, _⟩)
        · exact h
        · exact absurd h1 hdistinct.1
        · exact absurd h1 hdistinct.2.1
        · exact absurd h1 hdistinct.2.2.1
      · intro h; exact Or.inl ⟨rfl, h⟩
    · rw [hfields fTokenUrl]
      constructor
      · rintro (⟨h1, _⟩ | ⟨_, h⟩ | ⟨h1, _⟩ | ⟨h1, _⟩)
        · exact absurd h1.symm hdistinct.1
        · exact h
        · exact absurd h1 hdistinct.2.2.2.1
        · exact absurd h1 hdistinct.2.2.2.2.1
      · intro h; exact Or.inr (Or.inl ⟨rfl, h⟩)
    · rw [hfields fClientId]
      constructor
      · rintro (⟨h1, _⟩ | ⟨h1, _⟩ | ⟨_, h⟩ | ⟨h1, _⟩)
        · exact absurd h1.symm hdistinct.2.1
        · exact absurd h1.symm hdistinct.2.2.2.1
        · exact h
        · exact absurd h1 hdistinct.2.2.2.2.2
      · intro h; exact Or.inr (Or.inr (Or.inl ⟨rfl, h⟩))
    · rw [hfields fClientSecret]
      constructor
      · rintro (⟨h1, _⟩ | ⟨h1, _⟩ | ⟨h1, _⟩ | ⟨_, h⟩)
        · exact absurd h1.symm hdistinct.2.2.1
        · exact absurd h1.symm hdistinct.2.2.2.2.1
        · exact absurd h1.symm hdistinct.2.2.2.2.2
        · exact h
      · intro h; exact Or.inr (Or.inr (Or.inr ⟨rfl, h⟩))
  · intro h1 h2 h3 h4 nm missing
    have hm : missingOauthFields ds = [] := by
      rcases hcase : missingOauthFields ds with _ | ⟨s, rest⟩
      · rfl
      · exfalso
        have hs : s ∈ missingOauthFields ds := by rw [hcase]; simp
        rcases (hfields s).mp hs with ⟨_, h⟩ | ⟨_, h⟩ | ⟨_, h⟩ | ⟨_, h⟩
        · exact h1 h
        · exact h2 h
        · exact h3 h
        · exact h4 h
    rw [validate_one_downstream]
    rw [if_neg (by simp [hname])]
    rw [if_neg hdup]
    rw [if_neg hdisp]
    rw [if_neg hurl]
    rw [if_neg (by simp [hscheme])]
    rw [if_neg (by simp [hm])]
    split
    · simp
    · simp

theorem validate_one_downstream_ok (seen : List String) (ds : DownstreamConfig)
    (h : validate_one_downstream seen ds = .ok ()) :
    nameMatchesSlug ds.name = true ∧ ds.name ∉ seen := by
  by_cases h1 : nameMatchesSlug ds.name = true
  · by_cases h2 : ds.name ∈ seen
    · exfalso
      rw [validate_one_downstream, if_neg (by simp [h1]), if_pos h2] at h
      exact Except.noConfusion h
    · exact ⟨h1, h2⟩
  · exfalso
    rw [validate_one_downstream, if_pos (by simp [h1])] at h
    exact Except.noConfusion h

theorem validate_downstreams_go_invariant :
    ∀ (l : List DownstreamConfig) (seen : List String),
      validate_downstreams_go seen l = .ok () →
      (∀ ds ∈ l, nameMatchesSlug ds.name = true) ∧
      (l.map fun ds => ds.name).Nodup ∧
      (∀ ds ∈ l, ds.name ∉ seen) := by
  intro l
  induction l with
  | nil =>
      intro seen _
      exact ⟨by simp, by simp, by simp⟩
  | cons ds rest ih =>
      intro seen h
      rw [validate_downstreams_go] at h
      rcases hv : validate_one_downstream seen ds with e | u
      · rw [hv] at h; exact Except.noConfusion h
      · rw [hv] at h
        obtain ⟨hslug, hnotseen⟩ := validate_one_downstream_ok seen ds (by rw [hv])
        obtain ⟨ha, hb, hc⟩ := ih (ds.name :: seen) h
        refine ⟨?_, ?_, ?_⟩
        · intro x hx
          rcases List.mem_cons.mp hx with rfl | hx'
          · exact hslug
          · exact ha x hx'
        · rw [List.map_cons, List.nodup_cons]
          refine ⟨?_, hb⟩
          intro hmem
          rcases List.mem_map.mp hmem with ⟨y, hy, hyname⟩
          exact (hc y hy) (by rw [hyname]; exact List.mem_cons_self _ _)
        · intro x hx
          rcases List.mem_cons.mp hx with rfl | hx'
          · exact hnotseen
          · intro hmem
            exact (hc x hx') (List.mem_cons_of_mem _ hmem)

/-- C6: every configuration accepted by `validate_downstreams` satisfies
the registry invariant — the downstream list is non-empty, every name
matches `^[a-z0-9-]+$` (so a name with an uppercase letter or underscore is
rejected), and all names are pairwise distinct. -/
theorem downstream_registry_invariant (l : List DownstreamConfig)
    (h : validate_downstreams l = .ok ()) :
    l ≠ [] ∧ (∀ ds ∈ l, nameMatchesSlug ds.name = true) ∧
      (l.map fun ds => ds.name).Nodup := by
  rw [validate_downstreams] at h
  by_cases he : l.isEmpty
  · rw [if_pos he] at h; exact Except.noConfusion h
  · rw [if_neg he] at h
    obtain ⟨ha, hb, _⟩ := validate_downstreams_go_invariant l [] h
    exact ⟨by simpa [List.isEmpty_iff] using he, ha, hb⟩

/-- C7: server validation rejects a `state_secret` that is not valid
standard base64 or that decodes to fewer than 32 bytes — the too-short
error carries the actual decoded byte count, which `ServerError.message`
interpolates into the message text — and accepts one decoding to 32 bytes
or more.  (The empty-string case is handled before this check; see the
claim about the required-secret error.) -/
theorem state_secret_validation (secret : String) (hne : secret ≠ "") :
    (b64StdDecode secret.data = none →
      checkStateSecret secret = .error .stateSecretInvalidBase64) ∧
    (∀ bytes, b64StdDecode secret.data = some bytes →
      (bytes.length < 32 →
        checkStateSecret secret = .error (.stateSecretTooShort bytes.length)) ∧
      (32 ≤ bytes.length → checkStateSecret secret = .ok ())) := by
  constructor
  · intro hdec
    rw [checkStateSecret, if_neg hne, hdec]
  · intro bytes hdec
    constructor
    · intro hlen
      rw [checkStateSecret, if_neg hne, hdec]
      simp only [if_pos hlen]
    · intro hlen
      rw [checkStateSecret, if_neg hne, hdec]
      simp only [if_neg (by omega : ¬ bytes.length < 32)]

def secret4 : String := "AAAA"

def secret44 : String := "AAAAAAAAAAAAAAAAAAAAAAAAAAAAAAAAAAAAAAAAAAA="

def notB64 : String := "!!!"

theorem state_secret_validation_witness :
    checkStateSecret secret4 = .error (.stateSecretTooShort 3) ∧
    checkStateSecret secret44 = .ok () ∧
    checkStateSecret notB64 = .error .stateSecretInvalidBase64 := by
  refine ⟨?_, ?_, ?_⟩
  · exact ((state_secret_validation secret4 (by decide)).2 [0, 0, 0] (by decide)).1
      (by decide)
  · exact ((state_secret_validation secret44 (by decide)).2
      [0, 0, 0, 0, 0, 0, 0, 0, 0, 0, 0, 0, 0, 0, 0, 0, 0, 0, 0, 0, 0, 0, 0, 0,
        0, 0, 0, 0, 0, 0, 0, 0] (by decide)).2 (by decide)
  · exact (state_secret_validation notB64 (by decide)).1 (by decide)

theorem ne_empty_of_http (s : String) (h : strStartsWith s httpSchemeStr = true) :
    s ≠ "" := by
  intro he
  rw [he] at h
  exact absurd h (by decide)

theorem ne_empty_of_https (s : String) (h : strStartsWith s httpsSchemeStr = true) :
    s ≠ "" := by
  intro he
  rw [he] at h
  exact absurd h (by decide)

theorem not_http_of_https (s : String) (h : strStartsWith s httpsSchemeStr = true) :
    strStartsWith s httpSchemeStr = false := by
  refine Bool.eq_false_iff.mpr ?_
  intro hh
  simp only [strStartsWith, decide_eq_true_eq] at h hh
  have hlen : httpSchemeStr.data.length = 7 := by decide
  have hlen2 : httpsSchemeStr.data.length = 8 := by decide
  rw [hlen] at hh
  rw [hlen2] at h
  have h2 := congrArg (List.take 7) h
  rw [List.take_take] at h2
  norm_num at h2
  rw [hh] at h2
  exact absurd h2 (by decide)

/-- C8: server validation accepts `public_url` exactly when it is
non-empty, has no trailing slash, and starts with `https://` or `http://`
(given that the `state_secret` check passes); moreover an `http://` URL is
accepted with only the logged warning — never an error — while any other
scheme (such as `ftp://`) or a trailing slash is rejected. -/
theorem public_url_validation (server : ServerConfig)
    (hsecret : checkStateSecret server.state_secret = .ok ()) :
    ((validate_server server).2 = .ok () ↔
      (server.public_url ≠ "" ∧ strEndsWith server.public_url slashStr = false ∧
        (strStartsWith server.public_url httpsSchemeStr = true ∨
         strStartsWith server.public_url httpSchemeStr = true))) ∧
    (strStartsWith server.public_url httpSchemeStr = true →
      strEndsWith server.public_url slashStr = false →
      validate_server server = ([publicUrlHttpWarning], .ok ())) := by
  constructor
  · by_cases h0 : server.public_url = ""
    · rw [validate_server, if_pos h0]
      simp [h0]
    · by_cases h1 : strEndsWith server.public_url slashStr = true
      · rw [validate_server, if_neg h0, if_pos h1]
        simp [h0, h1]
      · by_cases h2 : strStartsWith server.public_url httpSchemeStr = true
        · rw [validate_server, if_neg h0, if_neg h1, if_pos h2, hsecret]
          simp only [Bool.not_eq_true] at h1
          simp [h0, h1, h2]
        · by_cases h3 : strStartsWith server.public_url httpsSchemeStr = true
          · rw [validate_server, if_neg h0, if_neg h1, if_neg h2,
              if_neg (by simp [h3]), hsecret]
            simp only [Bool.not_eq_true] at h1
            simp [h0, h1, h3]
          · rw [validate_server, if_neg h0, if_neg h1, if_neg h2,
              if_pos (by simp [Bool.not_eq_true] at h3; simp [h3])]
            simp only [Bool.not_eq_true] at h2 h3
            simp [h0, h1, h2, h3]
  · intro hh hsl
    rw [validate_server, if_neg (ne_empty_of_http server.public_url hh),
      if_neg (by simp [hsl]), if_pos hh, hsecret]

def goodServer : ServerConfig :=
  { host := "0.0.0.0"
    port := 8080
    public_url := "http://localhost:8080"
    state_secret := "AAAAAAAAAAAAAAAAAAAAAAAAAAAAAAAAAAAAAAAAAAA="
    auth_code_ttl := 300 }

theorem public_url_validation_witness :
    validate_server goodServer = ([publicUrlHttpWarning], .ok ()) :=
  (public_url_validation goodServer rfl).2 (by decide) (by decide)

/-- C10: when `state_secret` is the empty string, server validation fails
with the dedicated `server.state_secret is required` error; the emptiness
check runs before base64 decoding, so although the empty string is valid
base64 decoding to 0 bytes, the byte-count error path is never reached. -/
theorem empty_state_secret_required (server : ServerConfig)
    (h1 : server.state_secret = "")
    (h2 : strStartsWith server.public_url httpsSchemeStr = true)
    (h3 : strEndsWith server.public_url slashStr = false) :
    (validate_server server).2 = .error .stateSecretRequired ∧
    b64StdDecode server.state_secret.data = some [] ∧
    (∀ n, (validate_server server).2 ≠ .error (.stateSecretTooShort n)) := by
  have hcheck : checkStateSecret server.state_secret = .error .stateSecretRequired := by
    rw [h1, checkStateSecret, if_pos rfl]
  have hval : validate_server server =
      ([], .error .stateSecretRequired) := by
    rw [validate_server, if_neg (ne_empty_of_https server.public_url h2),
      if_neg (by simp [h3]), if_neg (by simp [not_http_of_https server.public_url h2]),
      if_neg (by simp [h2]), hcheck]
  refine ⟨by rw [hval], by rw [h1]; decide, ?_⟩
  intro n
  rw [hval]
  simp

def emptySecretServer : ServerConfig :=
  { host := "0.0.0.0"
    port := 8080
    public_url := "https://proxy.example.com"
    state_secret := ""
    auth_code_ttl := 300 }

theorem empty_state_secret_required_witness :
    (validate_server emptySecretServer).2 = .error .stateSecretRequired ∧
    b64StdDecode emptySecretServer.state_secret.data = some [] :=
  ⟨(empty_state_secret_required emptySecretServer rfl (by decide) (by decide)).1,
   (empty_state_secret_required emptySecretServer rfl (by decide) (by decide)).2.1⟩

def dsChained : DownstreamConfig :=
  { name := "gh"
    display_name := "GitHub"
    strategy := .ChainedOauth
    downstream_url := "https://api.github.com/mcp"
    auth_header_format := "Bearer"
    scopes := ""
    auth_hint := ""
    oauth_authorize_url := "https://github.com/login/oauth/authorize"
    oauth_token_url := ""
    oauth_client_id := "iv1.client"
    oauth_client_secret := "shh"
    oauth_scopes := ""
    oauth_supports_refresh := false
    oauth_token_accept := "application/json" }

theorem chained_oauth_missing_fields_witness :
    validate_one_downstream [] dsChained =
      .error (.chainedOauthMissing dsChained.name (missingOauthFields dsChained)) ∧
    (fTokenUrl ∈ missingOauthFields dsChained ↔ dsChained.oauth_token_url = "") := by
  have h := (chained_oauth_missing_fields [] dsChained rfl (by decide) (by simp)
    (by decide) (by decide) (by decide)).1 (by decide)
  exact ⟨h.1, h.2.2.1⟩

def dsPassthrough : DownstreamConfig :=
  { name := "test"
    display_name := "Test"
    strategy := .Passthrough
    downstream_url := "https://downstream.example.com/mcp"
    auth_header_format := "Bearer"
    scopes := ""
    auth_hint := ""
    oauth_authorize_url := ""
    oauth_token_url := ""
    oauth_client_id := ""
    oauth_client_secret := ""
    oauth_scopes := ""
    oauth_supports_refresh := false
    oauth_token_accept := "application/json" }

theorem downstream_registry_invariant_witness :
    [dsPassthrough] ≠ [] ∧
    (∀ ds ∈ [dsPassthrough], nameMatchesSlug ds.name = true) ∧
    (([dsPassthrough]).map fun ds => ds.name).Nodup :=
  downstream_registry_invariant [dsPassthrough] rfl

/-! ## The token-exchange handler (spec §4.5)

The route `POST /token/mcp/{name}` in `src/routes/token.rs` is an
unimplemented stub (`501 not yet implemented`), so the handler below is
modelled from the specification rather than translated from source. -/

def authorizationCodeGrant : String := "authorization_code"

def bearerTokenType : String := "Bearer"

/-- The OAuth error codes the exchange handler can return; every codec
failure, PKCE mismatch and redirect mismatch surfaces as `invalid_grant`. -/
inductive TokenError where
  | unsupportedGrantType
  | invalidGrant
  deriving DecidableEq, Repr

/-- The OAuth token response shape. -/
structure TokenResponse where
  access_token : String
  token_type : String
  refresh_token : Option String
  expires_in : Option Nat
  deriving DecidableEq, Repr

/-- Modelled from the spec: the mapping of `DownstreamTokens` to the OAuth
token response shape (`access_token`, `token_type`, optional
`refresh_token` / `expires_in` for the chained strategy). -/
def token_response_of : DownstreamTokens → TokenResponse
  | .Passthrough a => ⟨a, bearerTokenType, none, none⟩
  | .ChainedOAuth a r e => ⟨a, bearerTokenType, r, e⟩

/-- Modelled from the spec: the token-exchange handler
`exchange(grant_type, code, code_verifier, redirect_uri)` of §4.5, missing
from `src/routes/token.rs` (an unimplemented stub).  Steps: reject an
unsupported `grant_type`; validate the code with the codec; recompute
`base64url(SHA256(code_verifier))` and compare against the envelope's
`pkce_challenge`, failing with `invalid_grant` on mismatch; compare the
supplied `redirect_uri` against the stored one, failing with
`invalid_grant` on mismatch; otherwise map the embedded `DownstreamTokens`
to the token response.  `sha256s` is SHA-256 over the UTF-8 bytes of the
verifier string. -/
def exchange (sha256 : List Nat → List Nat)
    (decrypt : List Nat → List Nat → List Nat → Option (List Nat))
    (deser : List Nat → Option AuthCodePayload)
    (sha256s : String → List Nat)
    (grant_type code code_verifier redirect_uri : String)
    (state_secret : List Nat) (now : Nat) : Except TokenError TokenResponse :=
  if grant_type ≠ authorizationCodeGrant then .error .unsupportedGrantType
  else
    match validate_auth_code sha256 decrypt deser code state_secret now with
    | .error _ => .error .invalidGrant
    | .ok grant =>
        if String.mk (b64UrlEncode (sha256s code_verifier)) ≠ grant.pkce_challenge then
          .error .invalidGrant
        else if redirect_uri ≠ grant.redirect_uri then .error .invalidGrant
        else .ok (token_response_of grant.downstream_tokens)

/-- C1: for every token exchange presenting a decryptable, unexpired
authorization code (i.e. the codec returns a grant): if
`base64url(SHA256(code_verifier))` differs from the stored
`pkce_challenge` the exchange fails with `invalid_grant`, and if it matches
(and the supplied `redirect_uri` equals the stored one) the exchange
succeeds with the token response mapped from the embedded
`DownstreamTokens`. -/
theorem pkce_binding_exchange (sha256 : List Nat → List Nat)
    (decrypt : List Nat → List Nat → List Nat → Option (List Nat))
    (deser : List Nat → Option AuthCodePayload)
    (sha256s : String → List Nat)
    (code code_verifier redirect_uri : String) (secret : List Nat) (now : Nat)
    (grant : ValidatedGrant)
    (hval : validate_auth_code sha256 decrypt deser code secret now = .ok grant) :
    (String.mk (b64UrlEncode (sha256s code_verifier)) ≠ grant.pkce_challenge →
      exchange sha256 decrypt deser sha256s authorizationCodeGrant code
        code_verifier redirect_uri secret now = .error .invalidGrant) ∧
    (String.mk (b64UrlEncode (sha256s code_verifier)) = grant.pkce_challenge →
      redirect_uri = grant.redirect_uri →
      exchange sha256 decrypt deser sha256s authorizationCodeGrant code
        code_verifier redirect_uri secret now =
        .ok (token_response_of grant.downstream_tokens)) := by
  constructor
  · intro hne
    simp only [exchange]
    rw [if_neg (show ¬ authorizationCodeGrant ≠ authorizationCodeGrant by simp)]
    rw [hval]
    dsimp only
    rw [if_pos hne]
  · intro heq hred
    simp only [exchange]
    rw [if_neg (show ¬ authorizationCodeGrant ≠ authorizationCodeGrant by simp)]
    rw [hval]
    dsimp only
    rw [if_neg (not_not_intro heq), if_neg (not_not_intro hred)]

def toySha256s : String → List Nat := fun _ => [1, 2, 3]

def toyVerifier : String := "any-verifier"

def pkceChalAQID : String := "AQID"

def toyRefresh : String := "gh-refresh"

def toyPayload2 : AuthCodePayload :=
  ⟨DownstreamTokens.ChainedOAuth toyAccessToken (some toyRefresh) (some 28800),
    pkceChalAQID, toyRedirect, 20⟩

def toyDeser2 : List Nat → Option AuthCodePayload :=
  fun bs => if bs = [2] then some toyPayload2 else none

def toyDecrypt2 : List Nat → List Nat → List Nat → Option (List Nat) :=
  fun _ _ ciphertext => if ciphertext = [9] then some [2] else none

theorem pkce_binding_exchange_witness :
    exchange toySha toyDecrypt2 toyDeser2 toySha256s authorizationCodeGrant
      (String.mk (b64UrlEncode (toyNonce ++ [9]))) toyVerifier toyRedirect [7] 10 =
      .ok (token_response_of
        (DownstreamTokens.ChainedOAuth toyAccessToken (some toyRefresh) (some 28800))) := by
  have hval : validate_auth_code toySha toyDecrypt2 toyDeser2
      (String.mk (b64UrlEncode (toyNonce ++ [9]))) [7] 10 =
      .ok ⟨DownstreamTokens.ChainedOAuth toyAccessToken (some toyRefresh) (some 28800),
        pkceChalAQID, toyRedirect⟩ := by
    simp only [validate_auth_code]
    rw [b64Url_roundtrip (toyNonce ++ [9]) (by decide)]
    dsimp only
    rw [if_neg (by decide : ¬ (toyNonce ++ [9] : List Nat).length < 13)]
    rw [show rustSplitAt 12 (toyNonce ++ [9]) = some (toyNonce, [9]) from by decide]
    dsimp only
    simp [toyDecrypt2, toyDeser2, toyPayload2]
  have h := pkce_binding_exchange toySha toyDecrypt2 toyDeser2 toySha256s
    (String.mk (b64UrlEncode (toyNonce ++ [9]))) toyVerifier toyRedirect [7] 10
    ⟨DownstreamTokens.ChainedOAuth toyAccessToken (some toyRefresh) (some 28800),
      pkceChalAQID, toyRedirect⟩ hval
  exact h.2 (by decide) rfl
